import Mathlib

/-!
Verification of the Fit Castle body-recomposition recommendation engine
(`src/main.py`, `src/schemas.py`).

The engine is `recommend_plan` in `src/main.py`: a pure rule-based mapping
from a `BodyMetric` record to a `Recommendation`.  We embed the data model
from `src/schemas.py` and the engine from `src/main.py` shallowly: enums
become inductives, pydantic optional fields become `Option`, floats become
`ℚ` (the engine only compares them, never does float arithmetic), Python
ints become `Int`, and the in-place frequency-adjustment loop becomes a
`List.map`.  The best-effort persistence block of the endpoint is modelled
by an explicit storage-behaviour parameter whose outcomes (success or
exception) are `Except` values; the `try/except: pass` swallows them.
-/

namespace FitCastle

/-- `gender: Literal["male","female"]` from `src/schemas.py`. -/
inductive Gender where
  | male
  | female
deriving DecidableEq

/-- `activity_level: Literal["sedentary","light","moderate","active","athlete"]`
from `src/schemas.py`. -/
inductive ActivityLevel where
  | sedentary
  | light
  | moderate
  | active
  | athlete
deriving DecidableEq

/-- `goal: Literal["fat_loss","muscle_gain","recomp"]` from `src/schemas.py`. -/
inductive Goal where
  | fat_loss
  | muscle_gain
  | recomp
deriving DecidableEq

/-- The `BodyMetric` pydantic model of `src/schemas.py`. -/
structure BodyMetric where
  gender : Gender
  age : Int
  height_cm : ℚ
  weight_kg : ℚ
  waist_cm : Option ℚ
  hip_cm : Option ℚ
  neck_cm : Option ℚ
  body_fat_pct : Option ℚ
  activity_level : ActivityLevel
  goal : Goal
  member_id : Option String
deriving DecidableEq

/-- An optional numeric field satisfies a `ge`/`le` pair of pydantic bounds
when absent or in range. -/
def optInRange (lo hi : ℚ) (o : Option ℚ) : Bool :=
  match o with
  | none => true
  | some x => decide (lo ≤ x ∧ x ≤ hi)

/-- Structural validity of a `BodyMetric`: the `Field(..., ge=..., le=...)`
range constraints declared in `src/schemas.py` (the enum constraints are
enforced by the types above). -/
def BodyMetric.valid (m : BodyMetric) : Bool :=
  decide (12 ≤ m.age ∧ m.age ≤ 90) &&
  decide (120 ≤ m.height_cm ∧ m.height_cm ≤ 230) &&
  decide (30 ≤ m.weight_kg ∧ m.weight_kg ≤ 250) &&
  optInRange 40 200 m.waist_cm &&
  optInRange 40 200 m.hip_cm &&
  optInRange 20 60 m.neck_cm &&
  optInRange 3 60 m.body_fat_pct

/-- The `ExerciseItem` pydantic model of `src/schemas.py`. -/
structure ExerciseItem where
  name : String
  sets : Int
  reps : String
  frequency_per_week : Int
deriving DecidableEq

/-- The `Recommendation` pydantic model of `src/schemas.py`. -/
structure Recommendation where
  body_metric_id : Option String
  summary : String
  weekly_plan : List ExerciseItem
deriving DecidableEq

/-- Stage 1 of `recommend_plan` (`src/main.py` lines 141-153): the base
plan chosen by `goal`; the `else` branch is the catch-all for `recomp`. -/
def basePlan (goal : Goal) : List ExerciseItem :=
  match goal with
  | Goal.fat_loss =>
      [⟨"Treadmill Intervals", 6, "1 min fast / 2 min easy", 3⟩,
       ⟨"Full-Body Circuit", 4, "12-15 reps", 2⟩,
       ⟨"Core Stability", 3, "12-15 reps", 2⟩]
  | Goal.muscle_gain =>
      [⟨"Barbell Squat", 5, "5-8 reps", 2⟩,
       ⟨"Bench Press", 5, "5-8 reps", 2⟩,
       ⟨"Deadlift", 3, "3-5 reps", 1⟩,
       ⟨"Accessory (Rows, Press, Pull-ups)", 4, "8-12 reps", 2⟩]
  | Goal.recomp =>
      [⟨"Upper/Lower Split Strength", 4, "6-10 reps", 3⟩,
       ⟨"Zone 2 Cardio", 1, "30-40 mins", 2⟩,
       ⟨"Mobility & Core", 3, "10-15 reps", 2⟩]

/-- Stage 2 of `recommend_plan` (`src/main.py` lines 155-161): the in-place
frequency adjustment loop, as a map over the plan. -/
def adjustFrequency (activity : ActivityLevel) (plan : List ExerciseItem) :
    List ExerciseItem :=
  if activity = ActivityLevel.sedentary ∨ activity = ActivityLevel.light then
    plan.map fun it => { it with frequency_per_week := max 1 (it.frequency_per_week - 1) }
  else if activity = ActivityLevel.athlete then
    plan.map fun it => { it with frequency_per_week := it.frequency_per_week + 1 }
  else
    plan

/-- The constant base summary string of `src/main.py` line 163. -/
def baseSummary : String :=
  "Personalized plan generated based on your goal and activity level."

/-- The conditional suffix of `src/main.py` line 165. -/
def fatLossSuffix : String :=
  " Focus on sustainable deficit, prioritize sleep and steps."

/-- Stage 3 of `recommend_plan` (`src/main.py` lines 163-165).  The Python
condition is `if bf and goal == "fat_loss" and bf > 25`: `bf` is truthy
exactly when it is present and nonzero, hence the `b ≠ 0` conjunct. -/
def summaryFor (goal : Goal) (bf : Option ℚ) : String :=
  match bf with
  | none => baseSummary
  | some b =>
      if b ≠ 0 ∧ goal = Goal.fat_loss ∧ b > 25 then
        baseSummary ++ fatLossSuffix
      else
        baseSummary

/-- The pure recommendation engine: `recommend_plan` of `src/main.py`
lines 128-171, before the best-effort persistence block. -/
def recommend (m : BodyMetric) : Recommendation :=
  { body_metric_id := none
    summary := summaryFor m.goal m.body_fat_pct
    weekly_plan := adjustFrequency m.activity_level (basePlan m.goal) }

/-- One possible behaviour of the Storage Gateway during a recommend call:
the outcome of `create_document("bodymetric", metrics)` and, given the id
it returned, the outcome of `create_document("recommendation", ...)`.
`Except.error` models a raised exception. -/
structure StorageBehavior where
  createMetric : Except String String
  createRecommendationDoc : String → Except String String

/-- The best-effort save of `src/main.py` lines 174-178: the inner
`try/except Exception: pass`.  Returns what was persisted, if anything. -/
def bestEffortSave (σ : StorageBehavior) : Option (String × String) :=
  match σ.createMetric with
  | Except.error _ => none
  | Except.ok mid =>
      match σ.createRecommendationDoc mid with
      | Except.error _ => none
      | Except.ok rid => some (mid, rid)

/-- The `POST /api/recomposition/recommend` handler (`src/main.py` lines
123-182) for a given storage behaviour: computes the recommendation,
attempts the best-effort save discarding its outcome, and returns the
recommendation; `Except.error` would be the 500 branch. -/
def recommendEndpoint (σ : StorageBehavior) (m : BodyMetric) :
    Except String Recommendation :=
  let r := recommend m
  let _persisted := bestEffortSave σ
  Except.ok r

/-- The example input of the spec: gender female, age 30, height 165 cm,
weight 70 kg, activity sedentary, goal fat loss, body fat 28 %. -/
def sampleMetric : BodyMetric :=
  { gender := Gender.female
    age := 30
    height_cm := 165
    weight_kg := 70
    waist_cm := none
    hip_cm := none
    neck_cm := none
    body_fat_pct := some 28
    activity_level := ActivityLevel.sedentary
    goal := Goal.fat_loss
    member_id := none }

/-- A storage behaviour in which both create-document calls succeed. -/
def storageAllOk : StorageBehavior :=
  { createMetric := Except.ok "metric-id-1"
    createRecommendationDoc := fun _ => Except.ok "recommendation-id-1" }

/-- A storage behaviour in which the first create-document call raises. -/
def storageFailing : StorageBehavior :=
  { createMetric := Except.error "connection refused"
    createRecommendationDoc := fun _ => Except.error "connection refused" }

/-- Helper: over all nine goal/activity combinations, every item of the
adjusted plan has frequency in `[1, 4]` and positive sets. -/
theorem adjusted_item_bounds (goal : Goal) (activity : ActivityLevel) :
    ∀ it ∈ adjustFrequency activity (basePlan goal),
      1 ≤ it.frequency_per_week ∧ it.frequency_per_week ≤ 4 ∧ 0 < it.sets := by
  cases goal <;> cases activity <;> decide

/-- C1: for every structurally valid input, the base plan depends only on
the goal: `fat_loss` gives the three cardio/circuit items, `muscle_gain`
the four lifts, and the catch-all (`recomp`) the three recomposition
items, each with the listed base sets, reps and frequencies, and the
returned weekly plan is exactly that base plan fed to the frequency
adjustment. -/
theorem base_plan_selection_by_goal (m : BodyMetric) (h : m.valid = true) :
    (recommend m).weekly_plan =
      adjustFrequency m.activity_level
        (match m.goal with
         | Goal.fat_loss =>
             [⟨"Treadmill Intervals", 6, "1 min fast / 2 min easy", 3⟩,
              ⟨"Full-Body Circuit", 4, "12-15 reps", 2⟩,
              ⟨"Core Stability", 3, "12-15 reps", 2⟩]
         | Goal.muscle_gain =>
             [⟨"Barbell Squat", 5, "5-8 reps", 2⟩,
              ⟨"Bench Press", 5, "5-8 reps", 2⟩,
              ⟨"Deadlift", 3, "3-5 reps", 1⟩,
              ⟨"Accessory (Rows, Press, Pull-ups)", 4, "8-12 reps", 2⟩]
         | Goal.recomp =>
             [⟨"Upper/Lower Split Strength", 4, "6-10 reps", 3⟩,
              ⟨"Zone 2 Cardio", 1, "30-40 mins", 2⟩,
              ⟨"Mobility & Core", 3, "10-15 reps", 2⟩]) := by
  rcases m with ⟨g, age, ht, wt, wa, hip, nk, bf, activity, goal, mid⟩
  cases goal <;> rfl

/-- Witness for C1 at the sample input. -/
theorem base_plan_selection_by_goal_witness :
    sampleMetric.valid = true ∧
      (recommend sampleMetric).weekly_plan =
        adjustFrequency sampleMetric.activity_level
          [⟨"Treadmill Intervals", 6, "1 min fast / 2 min easy", 3⟩,
           ⟨"Full-Body Circuit", 4, "12-15 reps", 2⟩,
           ⟨"Core Stability", 3, "12-15 reps", 2⟩] :=
  ⟨by decide, base_plan_selection_by_goal sampleMetric (by decide)⟩

/-- C2: for every structurally valid input, each item's frequency in the
returned plan is `max 1 (base - 1)` when the activity level is sedentary
or light, `base + 1` for an athlete, and the base frequency unchanged for
moderate or active. -/
theorem frequency_adjustment_by_activity (m : BodyMetric) (h : m.valid = true) :
    (recommend m).weekly_plan.map (fun it => it.frequency_per_week) =
      (basePlan m.goal).map (fun it =>
        match m.activity_level with
        | ActivityLevel.sedentary => max 1 (it.frequency_per_week - 1)
        | ActivityLevel.light => max 1 (it.frequency_per_week - 1)
        | ActivityLevel.athlete => it.frequency_per_week + 1
        | ActivityLevel.moderate => it.frequency_per_week
        | ActivityLevel.active => it.frequency_per_week) := by
  rcases m with ⟨g, age, ht, wt, wa, hip, nk, bf, activity, goal, mid⟩
  cases goal <;> cases activity <;> rfl

/-- Witness for C2 at the sample input (sedentary, fat loss). -/
theorem frequency_adjustment_by_activity_witness :
    sampleMetric.valid = true ∧
      (recommend sampleMetric).weekly_plan.map (fun it => it.frequency_per_week) =
        (basePlan sampleMetric.goal).map (fun it => max 1 (it.frequency_per_week - 1)) :=
  ⟨by decide, frequency_adjustment_by_activity sampleMetric (by decide)⟩

/-- C3: the summary is the base sentence, with the fat-loss suffix appended
exactly when the goal is fat loss and the body-fat percentage is present
and strictly greater than 25; no other summary text exists, and 25 itself
does not trigger the suffix.  This holds for every input, valid or not:
although the Python condition also tests truthiness of `body_fat_pct`, a
value greater than 25 is necessarily nonzero. -/
theorem summary_suffix_iff (m : BodyMetric) :
    (recommend m).summary =
      if m.goal = Goal.fat_loss ∧ (m.body_fat_pct.any fun b => decide (25 < b)) = true
      then baseSummary ++ fatLossSuffix
      else baseSummary := by
  show summaryFor m.goal m.body_fat_pct = _
  cases hbf : m.body_fat_pct with
  | none => simp [summaryFor, Option.any]
  | some b =>
      simp only [summaryFor, Option.any]
      by_cases hb : (25 : ℚ) < b
      · have hb0 : b ≠ 0 := by
          intro h0
          rw [h0] at hb
          exact absurd hb (by norm_num)
        by_cases hg : m.goal = Goal.fat_loss
        · rw [if_pos ⟨hb0, hg, hb⟩, if_pos (by simp [hg, hb])]
        · rw [if_neg (fun hc => hg hc.2.1), if_neg (fun hc => hg hc.1)]
      · rw [if_neg (fun hc => hb hc.2.2), if_neg (by simp [hb])]

/-- C4: for every structurally valid input, every item of the returned
weekly plan has frequency at least 1 after adjustment. -/
theorem frequency_never_below_one (m : BodyMetric) (h : m.valid = true) :
    ∀ it ∈ (recommend m).weekly_plan, 1 ≤ it.frequency_per_week := by
  rcases m with ⟨g, age, ht, wt, wa, hip, nk, bf, activity, goal, mid⟩
  intro it hit
  exact (adjusted_item_bounds goal activity it hit).1

/-- Witness for C4 at the sample input and the first plan item. -/
theorem frequency_never_below_one_witness :
    sampleMetric.valid = true ∧
      1 ≤ (ExerciseItem.mk "Treadmill Intervals" 6 "1 min fast / 2 min easy" 2).frequency_per_week :=
  ⟨by decide,
   frequency_never_below_one sampleMetric (by decide)
     (ExerciseItem.mk "Treadmill Intervals" 6 "1 min fast / 2 min easy" 2) (by decide)⟩

/-- C5: for every structurally valid input, the adjustment stage mutates
only frequencies: the returned plan has the same length, order, names,
sets and reps as the stage-1 base plan for the goal. -/
theorem adjustment_preserves_frame (m : BodyMetric) (h : m.valid = true) :
    ((recommend m).weekly_plan.map fun it => (it.name, it.sets, it.reps)) =
      ((basePlan m.goal).map fun it => (it.name, it.sets, it.reps)) := by
  rcases m with ⟨g, age, ht, wt, wa, hip, nk, bf, activity, goal, mid⟩
  cases goal <;> cases activity <;> rfl

/-- Witness for C5 at the sample input. -/
theorem adjustment_preserves_frame_witness :
    sampleMetric.valid = true ∧
      ((recommend sampleMetric).weekly_plan.map fun it => (it.name, it.sets, it.reps)) =
        ((basePlan sampleMetric.goal).map fun it => (it.name, it.sets, it.reps)) :=
  ⟨by decide, adjustment_preserves_frame sampleMetric (by decide)⟩

/-- C6: the spec's end-to-end example: female, 30, 165 cm, 70 kg,
sedentary, fat loss, 28 % body fat yields the three fat-loss items with
frequencies 2, 1, 1 and the base summary with the fat-loss suffix. -/
theorem example_end_to_end :
    recommend sampleMetric =
      { body_metric_id := none
        summary := "Personalized plan generated based on your goal and activity level. Focus on sustainable deficit, prioritize sleep and steps."
        weekly_plan :=
          [⟨"Treadmill Intervals", 6, "1 min fast / 2 min easy", 2⟩,
           ⟨"Full-Body Circuit", 4, "12-15 reps", 1⟩,
           ⟨"Core Stability", 3, "12-15 reps", 1⟩] } := by
  decide

/-- C7: for every structurally valid input and every storage behaviour,
the endpoint returns a recommendation whose `body_metric_id` is null: the
persisted id is never reflected back into the returned object. -/
theorem body_metric_id_always_null (σ : StorageBehavior) (m : BodyMetric)
    (h : m.valid = true) :
    ∃ r, recommendEndpoint σ m = Except.ok r ∧ r.body_metric_id = none :=
  ⟨recommend m, rfl, rfl⟩

/-- Witness for C7 at the sample input with an all-succeeding store. -/
theorem body_metric_id_always_null_witness :
    sampleMetric.valid = true ∧
      ∃ r, recommendEndpoint storageAllOk sampleMetric = Except.ok r ∧
        r.body_metric_id = none :=
  ⟨by decide, body_metric_id_always_null storageAllOk sampleMetric (by decide)⟩

/-- C8: for every structurally valid input and every storage behaviour,
the recommend computation never fails: the endpoint always returns a
recommendation and its 500-error branch is unreachable. -/
theorem recommend_never_fails (σ : StorageBehavior) (m : BodyMetric)
    (h : m.valid = true) :
    ∃ r, recommendEndpoint σ m = Except.ok r :=
  ⟨recommend m, rfl⟩

/-- Witness for C8 at the sample input with a failing store. -/
theorem recommend_never_fails_witness :
    sampleMetric.valid = true ∧
      ∃ r, recommendEndpoint storageFailing sampleMetric = Except.ok r :=
  ⟨by decide, recommend_never_fails storageFailing sampleMetric (by decide)⟩

/-- C9: for every structurally valid input, the endpoint returns exactly
the pure engine's recommendation whatever the storage behaviour does, and
any two storage behaviours (success or failure) yield the same response:
persistence failures are swallowed and never alter the result. -/
theorem storage_failures_do_not_affect_response (σ σ' : StorageBehavior)
    (m : BodyMetric) (h : m.valid = true) :
    recommendEndpoint σ m = Except.ok (recommend m) ∧
      recommendEndpoint σ m = recommendEndpoint σ' m :=
  ⟨rfl, rfl⟩

/-- Witness for C9 at the sample input comparing a succeeding store with a
failing one. -/
theorem storage_failures_do_not_affect_response_witness :
    sampleMetric.valid = true ∧
      recommendEndpoint storageAllOk sampleMetric = Except.ok (recommend sampleMetric) ∧
      recommendEndpoint storageAllOk sampleMetric = recommendEndpoint storageFailing sampleMetric :=
  ⟨by decide,
   storage_failures_do_not_affect_response storageAllOk storageFailing sampleMetric (by decide)⟩

/-- C10: for every structurally valid input, every item of the returned
plan has frequency between 1 and 4 inclusive (base frequencies are at most
3 and the athlete adjustment adds 1) and a positive number of sets. -/
theorem frequency_and_sets_bounds (m : BodyMetric) (h : m.valid = true) :
    ∀ it ∈ (recommend m).weekly_plan,
      1 ≤ it.frequency_per_week ∧ it.frequency_per_week ≤ 4 ∧ 0 < it.sets := by
  rcases m with ⟨g, age, ht, wt, wa, hip, nk, bf, activity, goal, mid⟩
  intro it hit
  exact adjusted_item_bounds goal activity it hit

/-- Witness for C10 at the sample input and the first plan item. -/
theorem frequency_and_sets_bounds_witness :
    sampleMetric.valid = true ∧
      (1 ≤ (ExerciseItem.mk "Treadmill Intervals" 6 "1 min fast / 2 min easy" 2).frequency_per_week ∧
        (ExerciseItem.mk "Treadmill Intervals" 6 "1 min fast / 2 min easy" 2).frequency_per_week ≤ 4 ∧
        0 < (ExerciseItem.mk "Treadmill Intervals" 6 "1 min fast / 2 min easy" 2).sets) :=
  ⟨by decide,
   frequency_and_sets_bounds sampleMetric (by decide)
     (ExerciseItem.mk "Treadmill Intervals" 6 "1 min fast / 2 min easy" 2) (by decide)⟩

end FitCastle
